import Mathlib

/-!
Shallow embedding of the `react-suspence-chat-app` repository
(`src/App.tsx`, the non-streaming variant, and `src/Streaming.tsx`, the
streaming variant), together with theorems settling the spec claims.

JavaScript promises are embedded as `Except JSError α` values describing the
promise's eventual settlement; nondeterminism (the `Math.random()` draw, the
`Date.now()` timestamps) is made an explicit argument; React state updates
become pure functions on an explicit state.
-/

/-- A JavaScript thrown value: either a proper `Error` carrying a message
(the `instanceof Error` branch of the renderers) or some other thrown
value. -/
inductive JSError
  | error (message : String)
  | nonError
deriving DecidableEq

/-- The `from` field of a message: `"user" | "assistant"` in both variants. -/
inductive Sender
  | user
  | assistant
deriving DecidableEq

deriving instance DecidableEq for Except

namespace App

/-- The `Message` type of `src/App.tsx`: `{ from, messageId, sessionId,
content }`. The `from` field is spelled `from_` because `from` is a Lean
keyword. -/
structure Message where
  from_ : Sender
  messageId : String
  sessionId : String
  content : String
deriving DecidableEq

/-- One slot of the `messages` state array of `src/App.tsx`:
`Message | LazyMessage`. A `LazyMessage` (`Promise<Message>`) is embedded by
its eventual settlement. -/
inductive Entry
  | message (m : Message)
  | lazy (p : Except JSError Message)
deriving DecidableEq

/-- The delay, in milliseconds, of the `setTimeout` inside `fetchResponse`
(`src/App.tsx` line 97). -/
def fetchResponseDelayMs : Nat := 5000

/-- The body of `fetchResponse` (`src/App.tsx` lines 95-103) after the fixed
delay: `Math.random()` is the explicit argument `random`; a draw below 0.5
rejects with `new Error("Something went wrong")`, otherwise the promise
resolves with `question` (the code comments this `// parrot`). -/
def fetchResponse (question : String) (random : ℚ) : Except JSError String :=
  if random < 1/2 then .error (.error "Something went wrong")
  else .ok question

/-- The `question` message built by `handleSubmit` (`src/App.tsx` lines
34-39): `from: "user"`, `messageId: "1"`, `sessionId: "1"`, `content: input`. -/
def question (input : String) : Message :=
  { from_ := .user, messageId := "1", sessionId := "1", content := input }

/-- The message built in the `.then` continuation of `fetchResponse`
(`src/App.tsx` lines 40-47): `from: "assistant"`, `content: response`,
`sessionId: "1"`, `messageId: "2"`. -/
def assistantMessage (response : String) : Message :=
  { from_ := .assistant, messageId := "2", sessionId := "1", content := response }

/-- The `response` lazy message of `handleSubmit`: `fetchResponse(input)`
mapped through the `.then` continuation. A rejection propagates unchanged. -/
def lazyResponse (input : String) (random : ℚ) : Except JSError Message :=
  (fetchResponse input random).map assistantMessage

/-- The `setMessages` update performed by `handleSubmit` (`src/App.tsx` line
48): `[...messages, question, response]`. There is no emptiness check on
`input` in `src/App.tsx`. -/
def handleSubmit (input : String) (random : ℚ) (messages : List Entry) : List Entry :=
  messages ++ [.message (question input), .lazy (lazyResponse input random)]

end App

namespace Streaming

/-- The `Message` type of `src/Streaming.tsx`: `{ id, from, content? }`, the
content field being optional. -/
structure Message where
  id : String
  from_ : Sender
  content : Option String
deriving DecidableEq

/-- One slot of the `messages` state array of `src/Streaming.tsx`:
`Message | Promise<Message>`, the promise embedded by its eventual
settlement. -/
inductive Entry
  | message (m : Message)
  | lazy (p : Except JSError Message)
deriving DecidableEq

/-- Terminal signal of a `ReadableStream`: `controller.close()` or an error
raised mid-stream. -/
inductive StreamOutcome
  | close
  | error (e : JSError)
deriving DecidableEq

/-- A `ReadableStream` as used by `src/Streaming.tsx`, embedded by the
fragments it emits before its terminal signal, the terminal signal itself,
and whether a reader currently holds its lock (`stream.locked`). -/
structure ReadableStream where
  chunks : List String
  outcome : StreamOutcome
  locked : Bool
deriving DecidableEq

/-- The delay, in milliseconds, between two chunk emissions of the synthetic
stream (`src/Streaming.tsx` line 131). -/
def chunkDelayMs : Nat := 200

/-- The fixed lorem text of `fetchStreamingResponse` (`src/Streaming.tsx`
lines 122-123). -/
def lorem : String :=
  "Lorem, ipsum dolor sit amet consectetur adipisicing elit. Repellat, odit sequi quibusdam delectus sapiente nesciunt cupiditate expedita tempora error nam inventore, odio fuga aperiam eaque quaerat veritatis asperiores vero voluptatem."

/-- `fetchStreamingResponse` (`src/Streaming.tsx` lines 120-135): splits the
lorem text on spaces, enqueues each chunk with a trailing space appended
(`controller.enqueue(chunk + " ")`), then closes the stream; the `message`
argument is only logged, never used. -/
def fetchStreamingResponse (message : String) : ReadableStream :=
  let _ := message
  { chunks := (lorem.splitOn " ").map (fun chunk => chunk ++ " "),
    outcome := .close,
    locked := false }

/-- `readFromStream` (`src/Streaming.tsx` lines 137-154): acquires a reader
and folds `onData` over every chunk the stream delivers. A mid-stream error
is caught by the `try/catch` (only logged), so the function returns normally
with whatever was accumulated before the failure, for a failed stream just
as for a closed one. -/
def readFromStream (stream : ReadableStream) (onData : α → String → α) (init : α) : α :=
  stream.chunks.foldl onData init

/-- The `botMessage` promise of `handleSubmit` (`src/Streaming.tsx` lines
46-58): accumulates `text += chunk` via `readFromStream` over the second
teed stream, then resolves with an assistant message carrying the
accumulated text. The promise has no rejection path — `readFromStream`
swallows stream errors — so the settlement is always `ok`. -/
def botMessage (stream2 : ReadableStream) (id : String) : Except JSError Message :=
  .ok { id := id, from_ := .assistant,
        content := some (readFromStream stream2 (fun text chunk => text ++ chunk) "") }

/-- `stream.tee()` (`src/Streaming.tsx` line 43): two branches delivering
the same chunks and outcome, each initially unlocked. -/
def tee (s : ReadableStream) : ReadableStream × ReadableStream :=
  ({ s with locked := false }, { s with locked := false })

/-- The `userMessage` built by `handleSubmit` (`src/Streaming.tsx` lines
35-39): id from `Date.now().toString()` (the explicit `now` argument),
`from: "user"`, content the submitted input. -/
def userMessage (input : String) (now : String) : Message :=
  { id := now, from_ := .user, content := some input }

/-- The component state of `src/Streaming.tsx`'s `App` that `handleSubmit`
touches: the `messages` array and the single shared `stream` state variable
read by every Suspense fallback. -/
structure AppState where
  messages : List Entry
  stream : Option ReadableStream
deriving DecidableEq

/-- `handleSubmit` (`src/Streaming.tsx` lines 32-62): builds the user
message, tees the freshly fetched stream, overwrites the shared `stream`
state with the first branch, builds `botMessage` from the second branch, and
appends user message then bot promise to `messages`. `tUser` and `tBot` are
the two `Date.now().toString()` timestamps. No emptiness check is performed
on `input`. -/
def handleSubmit (input tUser tBot : String) (st : AppState) : AppState :=
  let stream := fetchStreamingResponse input
  let t := tee stream
  { messages := st.messages ++ [.message (userMessage input tUser), .lazy (botMessage t.2 tBot)],
    stream := some t.1 }

/-- The stream prop passed to the Suspense fallback of entry `i`
(`src/Streaming.tsx` lines 71-77): every entry's fallback is
`<MessageLoading stream={stream} />` with the one shared state variable,
independent of `i`. -/
def fallbackStream (st : AppState) (i : Nat) : Option ReadableStream :=
  let _ := i
  st.stream

/-- The effect of `MessageLoading` (`src/Streaming.tsx` lines 83-100) on its
`content` accumulator: if the stream prop is absent or the stream is already
locked the effect returns without reading; otherwise it appends every
delivered chunk to the accumulator via `readFromStream`. -/
def messageLoadingEffect (stream : Option ReadableStream) (content : String) : String :=
  match stream with
  | none => content
  | some s =>
    if s.locked then content
    else readFromStream s (fun c chunk => c ++ chunk) content

/-- The result of one `reader.read()` call on a view, as the spec's
StreamSplitter contract describes it: a fragment, the end of the stream, or
a failure. -/
inductive ReadResult
  | fragment (data : String)
  | eos
  | failed (e : JSError)
deriving DecidableEq

/-- The terminal read result corresponding to a stream's outcome. -/
def terminalResult : StreamOutcome → ReadResult
  | .close => .eos
  | .error e => .failed e

/-- Modelled from the spec: `ReadableStream.tee`'s two-consumer read
semantics is Web-platform code not present in the repository, so the split
view is taken from the spec's own model — "two independent cursors over the
same underlying chunk sequence; each cursor has its own
`{nextIndex, terminalReached}`". `cursorA` and `cursorB` are the two
`nextIndex` positions over the shared chunk sequence. -/
structure TeeState where
  chunks : List String
  outcome : StreamOutcome
  cursorA : Nat
  cursorB : Nat
deriving DecidableEq

/-- One read through a single cursor: the next unconsumed fragment if one
remains (advancing the cursor), otherwise the terminal result of the shared
outcome, left idempotent at the terminal state. -/
def readCursor (chunks : List String) (outcome : StreamOutcome) (cursor : Nat) :
    ReadResult × Nat :=
  match chunks.get? cursor with
  | some c => (.fragment c, cursor + 1)
  | none => (terminalResult outcome, cursor)

/-- One read on the split state through view A (`side = true`) or view B
(`side = false`); only that view's cursor moves. -/
def readView (s : TeeState) (side : Bool) : ReadResult × TeeState :=
  if side then
    let r := readCursor s.chunks s.outcome s.cursorA
    (r.1, { s with cursorA := r.2 })
  else
    let r := readCursor s.chunks s.outcome s.cursorB
    (r.1, { s with cursorB := r.2 })

/-- The split state produced by teeing a stream before anything was read:
both cursors at position zero over the stream's chunk sequence. -/
def teeSplit (s : ReadableStream) : TeeState :=
  { chunks := s.chunks, outcome := s.outcome, cursorA := 0, cursorB := 0 }

/-- Run an interleaving schedule of reads (`true` = view A, `false` = view
B) from a split state, collecting which view saw which result. -/
def runSchedule (s : TeeState) : List Bool → TeeState × List (Bool × ReadResult)
  | [] => (s, [])
  | side :: rest =>
    let r := readView s side
    let next := runSchedule r.2 rest
    (next.1, (side, r.1) :: next.2)

/-- The results one view observed, in order, out of a schedule's collected
output. -/
def sideOutputs (side : Bool) : List (Bool × ReadResult) → List ReadResult
  | [] => []
  | (b, r) :: rest =>
    if b = side then r :: sideOutputs side rest else sideOutputs side rest

/-- How many reads a schedule grants one view. -/
def countSide (side : Bool) : List Bool → Nat
  | [] => 0
  | b :: rest => countSide side rest + (if b = side then 1 else 0)

/-- The sequence a single cursor observes over `n` reads: the remaining
fragments in order, then the terminal result repeated. -/
def viewTrace (chunks : List String) (outcome : StreamOutcome) : Nat → Nat → List ReadResult
  | _, 0 => []
  | cursor, n + 1 =>
    (readCursor chunks outcome cursor).1 ::
      viewTrace chunks outcome (readCursor chunks outcome cursor).2 n

end Streaming

/-- The resolution state of one log entry at one render pass: a message
available now (a plain message, or a promise that has resolved), a promise
still pending, or a promise that has rejected with a thrown value. The
message type `μ` differs between the two variants. -/
inductive EntryView (μ : Type)
  | resolved (m : μ)
  | pending
  | failed (e : JSError)
deriving DecidableEq

/-- What one entry's region displays: the message paragraph, the Suspense
fallback, or the error boundary's fallback with its text. -/
inductive Rendered
  | messageText (from_ : Sender) (content : String)
  | loading
  | alert (text : String)
deriving DecidableEq

namespace App

/-- The text shown by `MessageError` (`src/App.tsx` lines 72-79):
`error.message` when the thrown value is an `Error`, `"Unknown error"`
otherwise. -/
def messageErrorText : JSError → String
  | .error message => message
  | .nonError => "Unknown error"

/-- The rendering of one entry of `src/App.tsx` (lines 59-67): each entry
is wrapped in its own `ErrorBoundary` around its own `Suspense`, so its
display is a function of that entry's state alone — `MessageComponent` for
an available message, the `MessageLoading` fallback while pending, the
`MessageError` fallback on rejection. -/
def renderEntry : EntryView Message → Rendered
  | .resolved m => .messageText m.from_ m.content
  | .pending => .loading
  | .failed e => .alert (messageErrorText e)

/-- The `role="log"` list of `src/App.tsx`: every entry rendered through
its own boundary. -/
def renderLog (entries : List (EntryView Message)) : List Rendered :=
  entries.map renderEntry

end App

namespace Streaming

/-- The text shown by `ErrorRenderer` (`src/Streaming.tsx` lines 112-118):
`error.message` when the thrown value is an `Error`,
`"Something went wrong"` otherwise. -/
def errorRendererText : JSError → String
  | .error message => message
  | .nonError => "Something went wrong"

/-- The rendering of one entry of `src/Streaming.tsx` (lines 71-77): per
entry, an `ErrorBoundary` around a `Suspense` around `MessageRenderer`. An
absent optional content renders as the empty text. -/
def renderEntry : EntryView Message → Rendered
  | .resolved m => .messageText m.from_ (m.content.getD "")
  | .pending => .loading
  | .failed e => .alert (errorRendererText e)

/-- The `role="log"` list of `src/Streaming.tsx`: every entry rendered
through its own boundary. -/
def renderLog (entries : List (EntryView Message)) : List Rendered :=
  entries.map renderEntry

end Streaming

namespace Streaming

/-- A read past the end of the chunk list returns the terminal result and
leaves the cursor in place. -/
theorem readCursor_past (o : StreamOutcome) (chunks : List String) (cursor : Nat)
    (h : chunks.get? cursor = none) :
    readCursor chunks o cursor = (terminalResult o, cursor) := by
  unfold readCursor
  rw [h]

/-- Reading at a shifted cursor over a cons is reading the tail, with the
resulting cursor shifted back. -/
theorem readCursor_shift (c : String) (cs : List String) (o : StreamOutcome) (cursor : Nat) :
    readCursor (c :: cs) o (cursor + 1) =
      ((readCursor cs o cursor).1, (readCursor cs o cursor).2 + 1) := by
  unfold readCursor
  have h : (c :: cs).get? (cursor + 1) = cs.get? cursor := rfl
  rw [h]
  cases hc : cs.get? cursor <;> simp

/-- A cursor over an empty chunk list observes the terminal result
repeated: repeating a read at the terminal state is idempotent. -/
theorem viewTrace_nil (o : StreamOutcome) (cursor : Nat) :
    ∀ n, viewTrace [] o cursor n = List.replicate n (terminalResult o)
  | 0 => rfl
  | n + 1 => by
    rw [List.replicate_succ]
    exact congrArg (List.cons (terminalResult o)) (viewTrace_nil o cursor n)

/-- Shifting the cursor one step right over a cons is reading the tail. -/
theorem viewTrace_shift (c : String) (cs : List String) (o : StreamOutcome) :
    ∀ (n cursor : Nat), viewTrace (c :: cs) o (cursor + 1) n = viewTrace cs o cursor n
  | 0, _ => rfl
  | n + 1, cursor => by
    show (readCursor (c :: cs) o (cursor + 1)).1 ::
        viewTrace (c :: cs) o (readCursor (c :: cs) o (cursor + 1)).2 n =
      (readCursor cs o cursor).1 :: viewTrace cs o (readCursor cs o cursor).2 n
    rw [readCursor_shift]
    exact congrArg (List.cons (readCursor cs o cursor).1)
      (viewTrace_shift c cs o n (readCursor cs o cursor).2)

/-- A cursor starting at zero and given enough reads observes every chunk in
order, then the terminal result repeated. -/
theorem viewTrace_full (o : StreamOutcome) :
    ∀ (chunks : List String) (n : Nat),
      viewTrace chunks o 0 (chunks.length + n) =
        chunks.map ReadResult.fragment ++ List.replicate n (terminalResult o)
  | [], n => by simpa using viewTrace_nil o 0 n
  | c :: cs, n => by
    have hlen : (c :: cs).length + n = (cs.length + n) + 1 := by
      simp only [List.length_cons]
      omega
    rw [hlen]
    show (readCursor (c :: cs) o 0).1 ::
        viewTrace (c :: cs) o (readCursor (c :: cs) o 0).2 (cs.length + n) = _
    have h0 : readCursor (c :: cs) o 0 = (.fragment c, 1) := rfl
    rw [h0]
    show ReadResult.fragment c :: viewTrace (c :: cs) o (0 + 1) (cs.length + n) = _
    rw [viewTrace_shift c cs o (cs.length + n) 0, viewTrace_full o cs n]
    simp

/-- Reading any number of times through an interleaved schedule, each view
observes exactly its own cursor's trace: the other view's reads are
invisible to it. -/
theorem runSchedule_outputs :
    ∀ (sched : List Bool) (s : TeeState),
      sideOutputs true (runSchedule s sched).2 =
        viewTrace s.chunks s.outcome s.cursorA (countSide true sched) ∧
      sideOutputs false (runSchedule s sched).2 =
        viewTrace s.chunks s.outcome s.cursorB (countSide false sched)
  | [], _ => ⟨rfl, rfl⟩
  | true :: rest, s =>
    have ih := runSchedule_outputs rest
      { s with cursorA := (readCursor s.chunks s.outcome s.cursorA).2 }
    ⟨congrArg (List.cons (readCursor s.chunks s.outcome s.cursorA).1) ih.1, ih.2⟩
  | false :: rest, s =>
    have ih := runSchedule_outputs rest
      { s with cursorB := (readCursor s.chunks s.outcome s.cursorB).2 }
    ⟨ih.1, congrArg (List.cons (readCursor s.chunks s.outcome s.cursorB).1) ih.2⟩

end Streaming

/-- C1: for every non-empty submitted text, the submit operation of each
variant appends exactly two entries to the message log in one state update —
first the user message carrying the submitted text, then the pending
assistant entry — and appends nothing else. -/
theorem submit_appends_user_then_pending (input : String) (random : ℚ)
    (messages : List App.Entry) (tUser tBot : String) (st : Streaming.AppState)
    (hne : input ≠ "") :
    App.handleSubmit input random messages =
      messages ++ [.message (App.question input), .lazy (App.lazyResponse input random)] ∧
    (App.question input).from_ = .user ∧
    (App.question input).content = input ∧
    (∀ m, App.lazyResponse input random = .ok m → m.from_ = .assistant) ∧
    (Streaming.handleSubmit input tUser tBot st).messages =
      st.messages ++ [.message (Streaming.userMessage input tUser),
        .lazy (Streaming.botMessage
          (Streaming.tee (Streaming.fetchStreamingResponse input)).2 tBot)] ∧
    (Streaming.userMessage input tUser).from_ = .user ∧
    (Streaming.userMessage input tUser).content = some input ∧
    (∀ m, Streaming.botMessage
        (Streaming.tee (Streaming.fetchStreamingResponse input)).2 tBot = .ok m →
      m.from_ = .assistant) := by
  refine ⟨rfl, rfl, rfl, ?_, rfl, rfl, rfl, ?_⟩
  · intro m h
    unfold App.lazyResponse at h
    cases hf : App.fetchResponse input random with
    | error e => rw [hf] at h; simp [Except.map] at h
    | ok r =>
      rw [hf] at h
      simp [Except.map] at h
      rw [← h]
      rfl
  · intro m h
    simp [Streaming.botMessage] at h
    rw [← h]

/-- Witness for C1 at the concrete submission `"hello"`. -/
theorem submit_appends_user_then_pending_witness :
    App.handleSubmit "hello" 1 [] =
      [.message (App.question "hello"), .lazy (App.lazyResponse "hello" 1)] :=
  (submit_appends_user_then_pending "hello" 1 [] "t1" "t2" ⟨[], none⟩ (by decide)).1

/-- C2: a chunk source that completes normally makes the aggregator resolve
with content equal to the concatenation of all emitted fragments in emission
order; the synthetic streaming source's fragments are the whitespace-split
words of the fixed lorem text, each carrying a trailing space, and that
source always completes normally. -/
theorem aggregator_concatenates (s : Streaming.ReadableStream) (id message : String)
    (h : s.outcome = .close) :
    Streaming.botMessage s id = .ok ⟨id, .assistant, some (String.join s.chunks)⟩ ∧
    (Streaming.fetchStreamingResponse message).chunks =
      (Streaming.lorem.splitOn " ").map (fun chunk => chunk ++ " ") ∧
    (Streaming.fetchStreamingResponse message).outcome = .close := by
  exact ⟨rfl, rfl, rfl⟩

/-- Witness for C2 at a concrete two-fragment source. -/
theorem aggregator_concatenates_witness :
    Streaming.botMessage ⟨["ab ", "cd "], .close, false⟩ "2" =
      .ok ⟨"2", .assistant, some "ab cd "⟩ := by
  have h := (aggregator_concatenates ⟨["ab ", "cd "], .close, false⟩ "2" "hi" rfl).1
  simpa using h

/-- C3: evaluation of both submit handlers at the empty input. Neither
`src/App.tsx` nor `src/Streaming.tsx` validates the input, so submitting the
empty string appends the user entry (with empty content) and the pending
assistant entry all the same — two entries, not zero. -/
theorem empty_submit_still_appends_two :
    (App.handleSubmit "" 1 []).length = 2 ∧
    (App.handleSubmit "" 1 []).get? 0 = some (.message (App.question "")) ∧
    (Streaming.handleSubmit "" "t1" "t2" ⟨[], none⟩).messages.length = 2 ∧
    (Streaming.handleSubmit "" "t1" "t2" ⟨[], none⟩).messages.get? 0 =
      some (.message (Streaming.userMessage "" "t1")) := by
  exact ⟨rfl, rfl, rfl, rfl⟩

/-- C4 counterexample: a source failing mid-stream after emitting
`"ab "` and `"cd "` still makes `botMessage` resolve successfully with the
partial concatenation — it does not fail with the stream's error, because
`readFromStream` catches it. -/
theorem aggregator_survives_failure_counterexample :
    Streaming.botMessage ⟨["ab ", "cd "], .error (.error "boom"), false⟩ "9" =
      .ok ⟨"9", .assistant, some "ab cd "⟩ ∧
    Streaming.botMessage ⟨["ab ", "cd "], .error (.error "boom"), false⟩ "9" ≠
      .error (.error "boom") := by
  constructor
  · simp [Streaming.botMessage, Streaming.readFromStream]
  · simp [Streaming.botMessage]

/-- C4 as amended: when the chunk source fails mid-stream, the aggregator's
eventual Message still resolves successfully, its content being the
concatenation of the fragments emitted before the failure (`readFromStream`
swallows the error), while the incremental renderer stops appending at the
failure point, its accumulator holding the same partial concatenation. -/
theorem aggregator_resolves_partial_on_failure (s : Streaming.ReadableStream)
    (e : JSError) (id : String) (h : s.outcome = .error e) :
    Streaming.botMessage s id = .ok ⟨id, .assistant, some (String.join s.chunks)⟩ ∧
    (s.locked = false →
      Streaming.messageLoadingEffect (some s) "" = String.join s.chunks) := by
  refine ⟨rfl, fun hl => ?_⟩
  simp [Streaming.messageLoadingEffect, hl, Streaming.readFromStream, String.join]

/-- Witness for the amended C4 at a concrete failing source. -/
theorem aggregator_resolves_partial_on_failure_witness :
    Streaming.botMessage ⟨["ab "], .error (.error "boom"), false⟩ "9" =
      .ok ⟨"9", .assistant, some (String.join ["ab "])⟩ ∧
    Streaming.messageLoadingEffect (some ⟨["ab "], .error (.error "boom"), false⟩) "" =
      String.join ["ab "] :=
  ⟨(aggregator_resolves_partial_on_failure ⟨["ab "], .error (.error "boom"), false⟩
      (.error "boom") "9" rfl).1,
    (aggregator_resolves_partial_on_failure ⟨["ab "], .error (.error "boom"), false⟩
      (.error "boom") "9" rfl).2 rfl⟩

/-- C6: the simulated non-streaming fetch settles exactly once after the one
fixed 5000 ms delay; it rejects with the descriptive error exactly when the
injected random draw is below one half, and otherwise resolves with the
single full response string; it never produces both outcomes. -/
theorem fetchResponse_settles_once (question : String) (random : ℚ) :
    (App.fetchResponse question random = .error (.error "Something went wrong") ↔
      random < 1/2) ∧
    (App.fetchResponse question random = .ok question ↔ 1/2 ≤ random) ∧
    ¬(App.fetchResponse question random = .error (.error "Something went wrong") ∧
      App.fetchResponse question random = .ok question) ∧
    App.fetchResponseDelayMs = 5000 := by
  unfold App.fetchResponse
  by_cases hr : random < 1/2
  · rw [if_pos hr]
    exact ⟨⟨fun _ => hr, fun _ => rfl⟩,
      ⟨fun h => Except.noConfusion h, fun h => absurd h (not_le.mpr hr)⟩,
      fun h => Except.noConfusion h.2, rfl⟩
  · rw [if_neg hr]
    exact ⟨⟨fun h => Except.noConfusion h, fun h => absurd h hr⟩,
      ⟨fun _ => not_lt.mp hr, fun _ => rfl⟩,
      fun h => Except.noConfusion h.1, rfl⟩

/-- Witness for C6 at the concrete draw one quarter. -/
theorem fetchResponse_settles_once_witness :
    App.fetchResponse "hello" (1/4 : ℚ) = .error (.error "Something went wrong") :=
  ((fetchResponse_settles_once "hello" (1/4)).1).mpr (by norm_num)

/-- C8 counterexample: with the failure draw forced high, the eventual
assistant message for the submission `"hello"` resolves with content
`"hello"` — the code parrots the question — which is not `"I don\x27t know"`
and not any fixed canned reply, since the submission `"bye"` resolves with
the different content `"bye"`. -/
theorem scenario_hello_not_canned :
    App.lazyResponse "hello" 1 = .ok (App.assistantMessage "hello") ∧
    App.lazyResponse "bye" 1 = .ok (App.assistantMessage "bye") ∧
    (App.assistantMessage "hello").content = "hello" ∧
    (App.assistantMessage "hello").content ≠ "I don\x27t know" ∧
    (App.assistantMessage "hello").content ≠ (App.assistantMessage "bye").content := by
  have h1 : ¬((1 : ℚ) < 1/2) := by norm_num
  refine ⟨?_, ?_, rfl, by decide, by decide⟩
  · unfold App.lazyResponse App.fetchResponse
    rw [if_neg h1]
    rfl
  · unfold App.lazyResponse App.fetchResponse
    rw [if_neg h1]
    rfl

/-- C8 as amended: on the non-streaming variant, submitting `"hello"` with
the random draw forced to no-failure appends the user message
`{from: "user", content: "hello"}` and a pending entry, and after the fixed
delay the pending entry resolves to `{from: "assistant", content: "hello"}`:
the code echoes the question rather than returning a canned reply. -/
theorem scenario_hello_parrot (random : ℚ) (log : List App.Entry)
    (h : 1/2 ≤ random) :
    App.handleSubmit "hello" random log =
      log ++ [.message ⟨.user, "1", "1", "hello"⟩,
        .lazy (.ok ⟨.assistant, "2", "1", "hello"⟩)] := by
  unfold App.handleSubmit App.lazyResponse App.fetchResponse
  rw [if_neg (not_lt.mpr h)]
  rfl

/-- Witness for the amended C8 at the draw one and the empty log. -/
theorem scenario_hello_parrot_witness :
    App.handleSubmit "hello" 1 [] =
      [.message ⟨.user, "1", "1", "hello"⟩,
        .lazy (.ok ⟨.assistant, "2", "1", "hello"⟩)] :=
  scenario_hello_parrot 1 [] (by norm_num)

/-- C9 counterexample: two successive submissions `"a"` and `"b"` construct
two distinct user Message values that share the messageId `"1"` —
`src/App.tsx` hardcodes `"1"` for every user message and `"2"` for every
assistant message, so ids repeat across submissions within a session. -/
theorem duplicate_ids_across_submissions :
    (App.handleSubmit "b" 1 (App.handleSubmit "a" 1 [])).get? 0 =
      some (.message (App.question "a")) ∧
    (App.handleSubmit "b" 1 (App.handleSubmit "a" 1 [])).get? 2 =
      some (.message (App.question "b")) ∧
    App.question "a" ≠ App.question "b" ∧
    (App.question "a").messageId = (App.question "b").messageId := by
  exact ⟨rfl, rfl, by decide, rfl⟩

/-- C9 as amended: within one submission of the non-streaming variant the
two constructed messages carry distinct ids (`"1"` for the user message,
`"2"` for the assistant message), but ids are reused across submissions —
every user message carries `"1"` and every assistant message `"2"` — so
message ids are not unique within a session. -/
theorem ids_unique_only_within_submission (input response a b : String) :
    (App.question input).messageId ≠ (App.assistantMessage response).messageId ∧
    (App.question a).messageId = (App.question b).messageId ∧
    (App.assistantMessage a).messageId = (App.assistantMessage b).messageId := by
  refine ⟨fun h => ?_, rfl, rfl⟩
  simp [App.question, App.assistantMessage] at h

/-- C5: over any interleaving schedule of reads on the two views of one teed
source, each view observes exactly its own cursor's trace — the full
fragment sequence in production order followed by the shared terminal
result, repeated idempotently — independent of the other view's reads; and
one read on either view never moves the other view's cursor (nor the shared
chunks and outcome). -/
theorem tee_views_independent_and_faithful (source : Streaming.ReadableStream)
    (sched : List Bool) (n : Nat) (s : Streaming.TeeState) :
    Streaming.sideOutputs true (Streaming.runSchedule (Streaming.teeSplit source) sched).2 =
      Streaming.viewTrace source.chunks source.outcome 0 (Streaming.countSide true sched) ∧
    Streaming.sideOutputs false (Streaming.runSchedule (Streaming.teeSplit source) sched).2 =
      Streaming.viewTrace source.chunks source.outcome 0 (Streaming.countSide false sched) ∧
    Streaming.viewTrace source.chunks source.outcome 0 (source.chunks.length + n) =
      source.chunks.map Streaming.ReadResult.fragment ++
        List.replicate n (Streaming.terminalResult source.outcome) ∧
    (Streaming.readView s true).2.cursorB = s.cursorB ∧
    (Streaming.readView s false).2.cursorA = s.cursorA ∧
    (Streaming.readView s true).2.chunks = s.chunks ∧
    (Streaming.readView s false).2.chunks = s.chunks ∧
    (Streaming.readView s true).2.outcome = s.outcome ∧
    (Streaming.readView s false).2.outcome = s.outcome := by
  obtain ⟨h1, h2⟩ := Streaming.runSchedule_outputs sched (Streaming.teeSplit source)
  exact ⟨h1, h2, Streaming.viewTrace_full source.outcome source.chunks n,
    rfl, rfl, rfl, rfl, rfl, rfl⟩

/-- C7: each entry renders through its own error boundary, so a failing
entry — and only a failing entry — shows the failure indicator, whose text
is the error's message when the thrown value is an `Error` and the
variant's generic fallback otherwise, while any entry at a position where
two logs agree renders identically in both. -/
theorem failure_isolated_per_entry (msg : String) (i j : Nat) (e : JSError)
    (entries entries2 : List (EntryView App.Message))
    (sEntries sEntries2 : List (EntryView Streaming.Message)) :
    (entries.get? i = some (.failed e) →
      (App.renderLog entries).get? i = some (.alert (App.messageErrorText e))) ∧
    App.messageErrorText (.error msg) = msg ∧
    App.messageErrorText .nonError = "Unknown error" ∧
    (entries.get? j = entries2.get? j →
      (App.renderLog entries).get? j = (App.renderLog entries2).get? j) ∧
    (∀ t, (App.renderLog entries).get? i = some (.alert t) →
      ∃ e2, entries.get? i = some (.failed e2) ∧ t = App.messageErrorText e2) ∧
    (sEntries.get? i = some (.failed e) →
      (Streaming.renderLog sEntries).get? i =
        some (.alert (Streaming.errorRendererText e))) ∧
    Streaming.errorRendererText (.error msg) = msg ∧
    Streaming.errorRendererText .nonError = "Something went wrong" ∧
    (sEntries.get? j = sEntries2.get? j →
      (Streaming.renderLog sEntries).get? j = (Streaming.renderLog sEntries2).get? j) ∧
    (∀ t, (Streaming.renderLog sEntries).get? i = some (.alert t) →
      ∃ e2, sEntries.get? i = some (.failed e2) ∧ t = Streaming.errorRendererText e2) := by
  refine ⟨?_, rfl, rfl, ?_, ?_, ?_, rfl, rfl, ?_, ?_⟩
  · intro h
    rw [App.renderLog, List.get?_map, h]
    rfl
  · intro h
    rw [App.renderLog, App.renderLog, List.get?_map, List.get?_map, h]
  · intro t h
    rw [App.renderLog, List.get?_map] at h
    cases he : entries.get? i with
    | none => rw [he] at h; simp at h
    | some v =>
      rw [he] at h
      cases v with
      | resolved m => simp [App.renderEntry] at h
      | pending => simp [App.renderEntry] at h
      | failed e2 =>
        simp [App.renderEntry] at h
        exact ⟨e2, rfl, h.symm⟩
  · intro h
    rw [Streaming.renderLog, List.get?_map, h]
    rfl
  · intro h
    rw [Streaming.renderLog, Streaming.renderLog, List.get?_map, List.get?_map, h]
  · intro t h
    rw [Streaming.renderLog, List.get?_map] at h
    cases he : sEntries.get? i with
    | none => rw [he] at h; simp at h
    | some v =>
      rw [he] at h
      cases v with
      | resolved m => simp [Streaming.renderEntry] at h
      | pending => simp [Streaming.renderEntry] at h
      | failed e2 =>
        simp [Streaming.renderEntry] at h
        exact ⟨e2, rfl, h.symm⟩

/-- Witness for C7 at a concrete two-entry log whose first entry failed. -/
theorem failure_isolated_per_entry_witness :
    (App.renderLog [.failed (.error "boom"), .pending]).get? 0 =
      some (.alert (App.messageErrorText (.error "boom"))) :=
  (failure_isolated_per_entry "boom" 0 1 (.error "boom")
    [.failed (.error "boom"), .pending] [] [] []).1 rfl

/-- C10: in the streaming variant a single stream state variable is shared
by every entry's Suspense fallback; each submission overwrites it with the
first branch of the newly teed stream of that submission, so every pending
entry's placeholder reads the most recently submitted stream; and a
placeholder whose stream prop is absent or whose stream is already locked
reads nothing, leaving its accumulator unchanged. -/
theorem shared_stream_overwritten_by_submit (st : Streaming.AppState)
    (input tUser tBot : String) (i j : Nat) (s : Streaming.ReadableStream)
    (content : String) (hl : s.locked = true) :
    (Streaming.handleSubmit input tUser tBot st).stream =
      some (Streaming.tee (Streaming.fetchStreamingResponse input)).1 ∧
    Streaming.fallbackStream st i = st.stream ∧
    Streaming.fallbackStream st i = Streaming.fallbackStream st j ∧
    Streaming.messageLoadingEffect none content = content ∧
    Streaming.messageLoadingEffect (some s) content = content := by
  refine ⟨rfl, rfl, rfl, rfl, ?_⟩
  simp [Streaming.messageLoadingEffect, hl]

/-- Witness for C10 at a concrete locked stream and at the absent stream. -/
theorem shared_stream_overwritten_by_submit_witness :
    Streaming.messageLoadingEffect (some ⟨["ab "], .close, true⟩) "x" = "x" :=
  (shared_stream_overwritten_by_submit ⟨[], none⟩ "hi" "t1" "t2" 0 1
    ⟨["ab "], .close, true⟩ "x" rfl).2.2.2.2
